import Mathlib

/-!
Shallow embedding of `src/watch-changes.js` (the `watchChanges` jQuery
module: unsaved-changes watcher for a DOM region).

Modelling choices, each anchored to the source:

* The three callback hooks (`onUnload`, `onSetAlert`, `onUnsetAlert`,
  lines 53-55) are opaque functions in the source; we observe them as an
  append-only trace of `CB` events, in the order the source fires them.
* `window.onbeforeunload` (lines 144-153, 164) is the process-wide
  navigation-guard slot; the source only tests it for truthiness and
  assigns a handler or `null`, so it is modelled as the Bool `armed`.
* jQuery element matching `$element.is(selector)` is an external DOM
  collaborator; an element is modelled by the list of selector strings it
  matches (`Elem.sels`), and `.is` is membership.
* The status note (`.text(...)`, `.addClass('has-changes')`,
  `.removeClass('has-changes')`, lines 196-206) is modelled by
  `statusText`/`statusHasClass`; the saved message (`addClass('hidden')`
  / `removeClass('hidden')`, lines 223-231) by `savedHidden`.
* `$.extend(target, src1, src2)` copies every defined key of the later
  arguments onto `target` and returns `target` itself.  The recognized
  option keys are the seven string options of `_defaults` (lines 45-56);
  `OptArgs` is a partial options object (absent keys are `none`).
-/

/-- Callback events, standing for the optional callbacks of the options
object (lines 53-55): each constructor records one invocation. -/
inductive CB
  | onUnload
  | onSetAlert
  | onUnsetAlert
deriving DecidableEq, Repr

/-- A DOM element, abstracted to the set of selector strings it matches. -/
structure Elem where
  sels : List String
deriving DecidableEq, Repr

/-- `$element.is(selector)` (jQuery): does the element match the selector. -/
def Elem.is (e : Elem) (sel : String) : Bool := e.sels.contains sel

/-- The seven recognized string options of `_defaults`
(src/watch-changes.js lines 45-56).  The three callback options are
modelled by the `CB` trace instead of by config values. -/
inductive OptKey
  | watchChangesStatus
  | watchChangesAlert
  | watchChangesStatusElement
  | watchChangesSavedElement
  | watchChangesExceptions
  | watchChangesSubmits
  | watchChangesIgnored
deriving DecidableEq, Repr

/-- A fully resolved options object (every recognized key present). -/
structure Config where
  watchChangesStatus : String
  watchChangesAlert : String
  watchChangesStatusElement : String
  watchChangesSavedElement : String
  watchChangesExceptions : String
  watchChangesSubmits : String
  watchChangesIgnored : String
deriving DecidableEq, Repr

/-- A partial options object (the `options` argument, or the region's
`data()` attributes): keys may be absent (`none` = `undefined`). -/
structure OptArgs where
  watchChangesStatus : Option String := none
  watchChangesAlert : Option String := none
  watchChangesStatusElement : Option String := none
  watchChangesSavedElement : Option String := none
  watchChangesExceptions : Option String := none
  watchChangesSubmits : Option String := none
  watchChangesIgnored : Option String := none
deriving DecidableEq, Repr

def Config.get (c : Config) : OptKey → String
  | .watchChangesStatus => c.watchChangesStatus
  | .watchChangesAlert => c.watchChangesAlert
  | .watchChangesStatusElement => c.watchChangesStatusElement
  | .watchChangesSavedElement => c.watchChangesSavedElement
  | .watchChangesExceptions => c.watchChangesExceptions
  | .watchChangesSubmits => c.watchChangesSubmits
  | .watchChangesIgnored => c.watchChangesIgnored

def OptArgs.get (a : OptArgs) : OptKey → Option String
  | .watchChangesStatus => a.watchChangesStatus
  | .watchChangesAlert => a.watchChangesAlert
  | .watchChangesStatusElement => a.watchChangesStatusElement
  | .watchChangesSavedElement => a.watchChangesSavedElement
  | .watchChangesExceptions => a.watchChangesExceptions
  | .watchChangesSubmits => a.watchChangesSubmits
  | .watchChangesIgnored => a.watchChangesIgnored

/-- The module-level `_defaults` object (lines 45-56), string options only. -/
def _defaults : Config :=
  { watchChangesStatus := "There are unsaved changes on this page"
    watchChangesAlert := "You've made changes on this page that are NOT SAVED and will be LOST if you leave this page. Are you sure you want continue?"
    watchChangesStatusElement := ".js-watch-changes-status"
    watchChangesSavedElement := ".js-watch-changes-saved"
    watchChangesExceptions := "[type=submit], [data-submit]"
    watchChangesSubmits := "[type=submit], [data-submit]"
    watchChangesIgnored := "[data-ignore-changes]" }

/-- An absent (`undefined`) or empty options object. -/
def noOpts : OptArgs := {}

/-- One step of `$.extend(base, src)`: every key `src` defines overrides
the value in `base`; undefined keys of `src` are skipped. -/
def extendInto (base : Config) (src : OptArgs) : Config :=
  { watchChangesStatus := src.watchChangesStatus.getD base.watchChangesStatus
    watchChangesAlert := src.watchChangesAlert.getD base.watchChangesAlert
    watchChangesStatusElement :=
      src.watchChangesStatusElement.getD base.watchChangesStatusElement
    watchChangesSavedElement :=
      src.watchChangesSavedElement.getD base.watchChangesSavedElement
    watchChangesExceptions :=
      src.watchChangesExceptions.getD base.watchChangesExceptions
    watchChangesSubmits := src.watchChangesSubmits.getD base.watchChangesSubmits
    watchChangesIgnored := src.watchChangesIgnored.getD base.watchChangesIgnored }

/-- `$.extend(_defaults, options, dataOptions)` (line 75): left-to-right
merge, so `dataOptions` overrides `options` overrides the defaults. -/
def jqExtend (base : Config) (options dataOptions : OptArgs) : Config :=
  extendInto (extendInto base options) dataOptions

/-- The state of one initialized watcher session, together with the
process-wide pieces it drives: the navigation-guard slot
(`window.onbeforeunload`, as `armed`) and the callback trace. -/
structure Session where
  hasChanges : Bool
  isException : Bool
  options : Config
  statusText : String
  statusHasClass : Bool
  savedHidden : Bool
  armed : Bool
  trace : List CB
deriving DecidableEq, Repr

/-- `setAlert` (lines 137-155), called internally with no `options`
argument: fires the `onSetAlert` callback, then installs the
before-unload handler only if none is installed yet. -/
def setAlert (s : Session) : Session :=
  { s with
    trace := s.trace ++ [CB.onSetAlert]
    armed := if s.armed then s.armed else true }

/-- `unsetAlert` (lines 157-166): fires the `onUnsetAlert` callback, then
clears the before-unload handler unconditionally. -/
def unsetAlert (s : Session) : Session :=
  { s with trace := s.trace ++ [CB.onUnsetAlert], armed := false }

/-- `hideSavedChangesMessage` (lines 223-226). -/
def hideSavedChangesMessage (s : Session) : Session :=
  { s with savedHidden := true }

/-- `showSavedChangesMessage` (lines 228-231). -/
def showSavedChangesMessage (s : Session) : Session :=
  { s with savedHidden := false }

/-- `checkForException` (lines 175-190) on a nonempty element: recompute
`isException` from the current target; when it is not an exception, set
`hasChanges` (never cleared here). -/
def checkForException (s : Session) (e : Elem) : Session :=
  let isExc := e.is s.options.watchChangesExceptions
  let s' := { s with isException := isExc }
  if !isExc then { s' with hasChanges := true } else s'

/-- `updateStatusNote(status)` (lines 192-214).  `status` is optional;
`status || this.options.watchChangesStatus` treats the empty string as
falsy.  Dirty: set text, add `has-changes`, hide the saved message, arm.
Clean: remove `has-changes` (text untouched), show the saved message,
disarm. -/
def updateStatusNote (s : Session) (status : Option String) : Session :=
  let st := match status with
    | some v => if v = "" then s.options.watchChangesStatus else v
    | none => s.options.watchChangesStatus
  if s.hasChanges then
    setAlert (hideSavedChangesMessage
      { s with statusText := st, statusHasClass := true })
  else
    unsetAlert (showSavedChangesMessage { s with statusHasClass := false })

/-- `updateHasChanges(state)` (lines 216-221): the `setDirty` operation. -/
def updateHasChanges (s : Session) (state : Bool) : Session :=
  updateStatusNote { s with hasChanges := state } none

/-- The delegated `keyup change` handler bound in `init` (lines 102-125):
ignored targets return immediately; otherwise recompute the exception
state, refresh the status note, then arm when dirty and not an exception,
or disarm when an exception. -/
def onFieldMutation (s : Session) (e : Elem) : Session :=
  if e.is s.options.watchChangesIgnored then s
  else
    let s1 := checkForException s e
    let s2 := updateStatusNote s1 none
    if !s2.isException && s2.hasChanges then setAlert s2
    else if s2.isException then unsetAlert s2
    else s2

/-- The delegated `click` handler bound in `init` (lines 94-99): fires
only on targets matching the submits selector; stops immediate
propagation (the returned Bool) and disarms the guard. -/
def onSubmitClick (s : Session) (e : Elem) : Session × Bool :=
  if e.is s.options.watchChangesSubmits then (unsetAlert s, true)
  else (s, false)

/-- What the region selector and its `data()` attributes resolved to:
the number of matched elements and the declarative configuration. -/
structure RegionInput where
  scopeLength : Nat
  dataOptions : OptArgs
deriving DecidableEq, Repr

/-- The raw object `new watchChanges(scope, options)` yields (lines
65-81).  `hasChanges`, `isException` and the scope are always assigned;
when the scope is empty the constructor returns before resolving
`options` (so `options = none`) and before `init` binds any handler
(`handlersBound = false`).  The presentation and guard fields carry the
state the session drives once initialized. -/
structure Watcher where
  hasChanges : Bool
  isException : Bool
  scopeLength : Nat
  options : Option Config
  handlersBound : Bool
  statusText : String
  statusHasClass : Bool
  savedHidden : Bool
  armed : Bool
  trace : List CB
deriving DecidableEq, Repr

/-- The constructor `watchChanges(scope, options)` (lines 65-81) plus the
handler binding of `init` (lines 85-127).  `cell` is the current contents
of the module-level `_defaults` object; since `$.extend(_defaults, ...)`
mutates and returns its first argument, the second component is the new
contents of that shared object, which is also the constructed session's
`options` object. -/
def watchChanges (cell : Config) (region : RegionInput) (opts : OptArgs) :
    Watcher × Config :=
  if region.scopeLength = 0 then
    ({ hasChanges := false, isException := false, scopeLength := 0
       options := none, handlersBound := false, statusText := ""
       statusHasClass := false, savedHidden := false, armed := false
       trace := [] }, cell)
  else
    let resolved := jqExtend cell opts region.dataOptions
    ({ hasChanges := false, isException := false
       scopeLength := region.scopeLength, options := some resolved
       handlersBound := true, statusText := "", statusHasClass := false
       savedHidden := false, armed := false, trace := [] }, resolved)

/-- A session's configuration is read live from the shared `_defaults`
object (line 75 returns `_defaults` itself as `this.options`), so the
option values any existing session sees are exactly the cell's current
contents. -/
def liveConfig (cell : Config) : Config := cell

/-- View an initialized watcher as a session over its resolved config. -/
def Watcher.toSession (w : Watcher) (cfg : Config) : Session :=
  { hasChanges := w.hasChanges, isException := w.isException, options := cfg
    statusText := w.statusText, statusHasClass := w.statusHasClass
    savedHidden := w.savedHidden, armed := w.armed, trace := w.trace }

/-- Write a session's state back into the watcher object. -/
def Session.toWatcher (s : Session) (scopeLength : Nat) (bound : Bool) :
    Watcher :=
  { hasChanges := s.hasChanges, isException := s.isException
    scopeLength := scopeLength, options := some s.options
    handlersBound := bound, statusText := s.statusText
    statusHasClass := s.statusHasClass, savedHidden := s.savedHidden
    armed := s.armed, trace := s.trace }

/-- Calling `updateHasChanges(state)` directly on the raw object: on an
uninitialized watcher `this.options` is `undefined`, so the
`updateStatusNote` it calls throws a TypeError reading
`this.options.watchChangesStatus` (line 194). -/
def Watcher.callUpdateHasChanges (w : Watcher) (state : Bool) :
    Except String Watcher :=
  match w.options with
  | none => .error "TypeError: this.options is undefined"
  | some cfg =>
      .ok ((updateHasChanges (w.toSession cfg) state).toWatcher
        w.scopeLength w.handlersBound)

/-- Calling `updateStatusNote()` directly on the raw object; fails the
same way as `Watcher.callUpdateHasChanges` when uninitialized. -/
def Watcher.callUpdateStatusNote (w : Watcher) (status : Option String) :
    Except String Watcher :=
  match w.options with
  | none => .error "TypeError: this.options is undefined"
  | some cfg =>
      .ok ((updateStatusNote (w.toSession cfg) status).toWatcher
        w.scopeLength w.handlersBound)

/-- Delivery of a `keyup`/`change` event from the region.  The handler of
lines 102-125 runs only if `init` bound it; when the scope was empty the
constructor returned before `init`, so no handler exists and the event
has no effect at all. -/
def Watcher.onMutationEvent (w : Watcher) (e : Elem) : Except String Watcher :=
  if w.handlersBound then
    match w.options with
    | none => .error "TypeError: this.options is undefined"
    | some cfg =>
        .ok ((onFieldMutation (w.toSession cfg) e).toWatcher
          w.scopeLength w.handlersBound)
  else .ok w

/-- Delivery of a `click` event from the region (handler of lines 94-99);
like `Watcher.onMutationEvent`, nothing runs when no handler was bound. -/
def Watcher.onClickEvent (w : Watcher) (e : Elem) : Except String Watcher :=
  if w.handlersBound then
    match w.options with
    | none => .error "TypeError: this.options is undefined"
    | some cfg =>
        .ok ((onSubmitClick (w.toSession cfg) e).1.toWatcher
          w.scopeLength w.handlersBound)
  else .ok w

/-- The watcher obtained when the region selector matches no elements. -/
def inertWatcher : Watcher :=
  (watchChanges _defaults { scopeLength := 0, dataOptions := noOpts } noOpts).1

/-! Concrete fixtures: a session freshly initialized over the default
configuration, and elements matching the default selectors. -/

/-- A session as `init` leaves it over the default configuration: clean,
no exception, guard disarmed, no callback fired yet. -/
def freshSession : Session :=
  { hasChanges := false, isException := false, options := _defaults
    statusText := "", statusHasClass := false, savedHidden := false
    armed := false, trace := [] }

/-- `freshSession` after changes were made (dirty). -/
def dirtySession : Session := { freshSession with hasChanges := true }

/-- `freshSession` with the before-unload handler already installed. -/
def armedSession : Session := { freshSession with armed := true }

/-- An element matching the default exceptions/submits selector
(e.g. a `[type=submit]` button). -/
def excElem : Elem := { sels := ["[type=submit], [data-submit]"] }

/-- An ordinary input element, matching none of the configured selectors. -/
def plainElem : Elem := { sels := ["input"] }

/-- An element matching the default ignored selector. -/
def ignoredElem : Elem := { sels := ["[data-ignore-changes]"] }

/-! Helper lemmas about the individual operations. -/

theorem setAlert_armed (s : Session) : (setAlert s).armed = true := by
  cases h : s.armed <;> simp [setAlert, h]

theorem updateStatusNote_hasChanges (s : Session) (status : Option String) :
    (updateStatusNote s status).hasChanges = s.hasChanges := by
  cases h : s.hasChanges <;>
    simp [updateStatusNote, setAlert, unsetAlert, hideSavedChangesMessage,
      showSavedChangesMessage, h]

theorem updateStatusNote_options (s : Session) (status : Option String) :
    (updateStatusNote s status).options = s.options := by
  cases h : s.hasChanges <;>
    simp [updateStatusNote, setAlert, unsetAlert, hideSavedChangesMessage,
      showSavedChangesMessage, h]

theorem onFieldMutation_hasChanges_true (s : Session) (e : Elem)
    (h : s.hasChanges = true) : (onFieldMutation s e).hasChanges = true := by
  cases h1 : e.is s.options.watchChangesIgnored <;>
    cases h2 : e.is s.options.watchChangesExceptions <;>
      simp [onFieldMutation, checkForException, updateStatusNote, setAlert,
        unsetAlert, hideSavedChangesMessage, showSavedChangesMessage, h, h1, h2]

theorem onFieldMutation_options (s : Session) (e : Elem) :
    (onFieldMutation s e).options = s.options := by
  cases h1 : e.is s.options.watchChangesIgnored <;>
    cases h2 : e.is s.options.watchChangesExceptions <;>
      cases h3 : s.hasChanges <;>
        simp [onFieldMutation, checkForException, updateStatusNote, setAlert,
          unsetAlert, hideSavedChangesMessage, showSavedChangesMessage,
          h1, h2, h3]

/-! Claim theorems. -/

/-- C1 (counterexample).  The claimed invariant "the guard is armed iff
`hasChanges && !isException` at the last state update" fails after
`setDirty(true)`: mutate a field matching the exceptions selector (so
`isException = true`, guard disarmed), then call `setDirty(true)`.
`updateHasChanges` re-arms through `updateStatusNote` purely from
`hasChanges`, leaving the guard armed while
`hasChanges && !isException = false`. -/
theorem c1_guard_iff_counterexample :
    ((updateHasChanges (onFieldMutation freshSession excElem) true).armed
        = true)
  ∧ (((updateHasChanges (onFieldMutation freshSession excElem) true).hasChanges
      && !(updateHasChanges (onFieldMutation freshSession excElem)
            true).isException) = false) := by decide

/-- C1 (amended).  After `onFieldMutation` on a non-ignored target the
guard is armed iff `hasChanges && !isException`; after `setDirty(state)`
the guard is armed iff `hasChanges` (= `state`) alone, regardless of
`isException` — so `setDirty(true)` always arms and `setDirty(false)`
always disarms. -/
theorem c1_guard_sync_amended (s : Session) (e : Elem) (b : Bool)
    (h : e.is s.options.watchChangesIgnored = false) :
    ((onFieldMutation s e).armed =
      ((onFieldMutation s e).hasChanges && !(onFieldMutation s e).isException))
  ∧ ((updateHasChanges s b).armed = b)
  ∧ ((updateHasChanges s b).hasChanges = b) := by
  cases h2 : e.is s.options.watchChangesExceptions <;>
    cases h3 : s.hasChanges <;> cases h4 : s.armed <;> cases b <;>
      simp [onFieldMutation, updateHasChanges, checkForException,
        updateStatusNote, setAlert, unsetAlert, hideSavedChangesMessage,
        showSavedChangesMessage, h, h2, h3, h4]

/-- Witness for `c1_guard_sync_amended` at a concrete input: a plain
input field in a fresh default session, and `setDirty(false)`. -/
theorem c1_guard_sync_amended_witness :
    (plainElem.is freshSession.options.watchChangesIgnored = false)
  ∧ (((onFieldMutation freshSession plainElem).armed =
        ((onFieldMutation freshSession plainElem).hasChanges &&
          !(onFieldMutation freshSession plainElem).isException))
    ∧ ((updateHasChanges freshSession false).armed = false)
    ∧ ((updateHasChanges freshSession false).hasChanges = false)) :=
  ⟨by decide, c1_guard_sync_amended freshSession plainElem false (by decide)⟩

/-- C2 (confirmed).  Once `hasChanges` is true it stays true across any
further sequence of mutation events, whatever their targets (ignored,
exception or plain); a submit click also preserves it; and it is set to
exactly `state` — in particular cleared — only by `setDirty(state)`. -/
theorem c2_hasChanges_monotonic (s : Session) (es : List Elem) (e : Elem)
    (b : Bool) (h : s.hasChanges = true) :
    ((es.foldl onFieldMutation s).hasChanges = true)
  ∧ ((onSubmitClick s e).1.hasChanges = true)
  ∧ ((updateHasChanges s b).hasChanges = b) := by
  refine ⟨?_, ?_, ?_⟩
  · induction es generalizing s with
    | nil => exact h
    | cons x xs ih =>
        simpa using ih (onFieldMutation s x)
          (onFieldMutation_hasChanges_true s x h)
  · cases h1 : e.is s.options.watchChangesSubmits <;>
      simp [onSubmitClick, unsetAlert, h, h1]
  · simpa [updateHasChanges] using
      updateStatusNote_hasChanges { s with hasChanges := b } none

/-- Witness for `c2_hasChanges_monotonic`: a dirty default session, a
three-event sequence covering an exception, a plain and an ignored
target, a submit click, and `setDirty(false)`. -/
theorem c2_hasChanges_monotonic_witness :
    (dirtySession.hasChanges = true)
  ∧ ((([excElem, plainElem, ignoredElem].foldl onFieldMutation
        dirtySession).hasChanges = true)
    ∧ ((onSubmitClick dirtySession excElem).1.hasChanges = true)
    ∧ ((updateHasChanges dirtySession false).hasChanges = false)) :=
  ⟨by decide, c2_hasChanges_monotonic dirtySession
    [excElem, plainElem, ignoredElem] excElem false (by decide)⟩

/-- C3 (confirmed).  A click on a target matching the submits selector
stops immediate propagation (second component `true`) and disarms the
guard, leaving `hasChanges`, `isException` and the presented status
(text, `has-changes` class, saved message) untouched. -/
theorem c3_submit_disarm_frame (s : Session) (e : Elem)
    (h : e.is s.options.watchChangesSubmits = true) :
    ((onSubmitClick s e).1.armed = false)
  ∧ ((onSubmitClick s e).2 = true)
  ∧ ((onSubmitClick s e).1.hasChanges = s.hasChanges)
  ∧ ((onSubmitClick s e).1.isException = s.isException)
  ∧ ((onSubmitClick s e).1.statusText = s.statusText)
  ∧ ((onSubmitClick s e).1.statusHasClass = s.statusHasClass)
  ∧ ((onSubmitClick s e).1.savedHidden = s.savedHidden) := by
  simp [onSubmitClick, unsetAlert, h]

/-- Witness for `c3_submit_disarm_frame`: a submit click on a dirty,
armed default session. -/
theorem c3_submit_disarm_frame_witness :
    (excElem.is armedSession.options.watchChangesSubmits = true)
  ∧ (((onSubmitClick armedSession excElem).1.armed = false)
    ∧ ((onSubmitClick armedSession excElem).2 = true)
    ∧ ((onSubmitClick armedSession excElem).1.hasChanges =
        armedSession.hasChanges)
    ∧ ((onSubmitClick armedSession excElem).1.isException =
        armedSession.isException)
    ∧ ((onSubmitClick armedSession excElem).1.statusText =
        armedSession.statusText)
    ∧ ((onSubmitClick armedSession excElem).1.statusHasClass =
        armedSession.statusHasClass)
    ∧ ((onSubmitClick armedSession excElem).1.savedHidden =
        armedSession.savedHidden)) :=
  ⟨by decide, c3_submit_disarm_frame armedSession excElem (by decide)⟩

/-- C4 (confirmed).  A mutation event on a target matching the ignored
selector returns before touching anything: the session, the guard and
the trace are exactly unchanged. -/
theorem c4_ignored_inert (s : Session) (e : Elem)
    (h : e.is s.options.watchChangesIgnored = true) :
    onFieldMutation s e = s := by
  simp [onFieldMutation, h]

/-- Witness for `c4_ignored_inert`: an ignored field in a dirty default
session. -/
theorem c4_ignored_inert_witness :
    (ignoredElem.is dirtySession.options.watchChangesIgnored = true)
  ∧ onFieldMutation dirtySession ignoredElem = dirtySession :=
  ⟨by decide, c4_ignored_inert dirtySession ignoredElem (by decide)⟩

/-- C5 (counterexample).  The claim that every public operation on the
inert watcher "neither fails nor produces any observable effect" is
false: calling `setDirty(false)` (`updateHasChanges`) on the watcher
built from an empty region throws, because `updateStatusNote` reads
`this.options.watchChangesStatus` and `this.options` was never assigned
(the constructor returned at line 72). -/
theorem c5_inert_setDirty_fails :
    inertWatcher.callUpdateHasChanges false =
      Except.error "TypeError: this.options is undefined" := by rfl

/-- C5 (amended).  When the region selector matches nothing the
constructor raises no error and binds no handlers, so region events
(mutations and submit clicks) on the inert watcher are failure-free
no-ops; but calling `setDirty` or `updateStatusNote` directly on it
fails with a TypeError instead of being a safe no-op. -/
theorem c5_inert_watcher_amended (e : Elem) (b : Bool) (st : Option String) :
    (inertWatcher.handlersBound = false)
  ∧ (inertWatcher.hasChanges = false)
  ∧ (inertWatcher.armed = false)
  ∧ (inertWatcher.trace = [])
  ∧ (inertWatcher.onMutationEvent e = Except.ok inertWatcher)
  ∧ (inertWatcher.onClickEvent e = Except.ok inertWatcher)
  ∧ (inertWatcher.callUpdateHasChanges b =
      Except.error "TypeError: this.options is undefined")
  ∧ (inertWatcher.callUpdateStatusNote st =
      Except.error "TypeError: this.options is undefined") := by
  simp [inertWatcher, watchChanges, Watcher.onMutationEvent,
    Watcher.onClickEvent, Watcher.callUpdateHasChanges,
    Watcher.callUpdateStatusNote]

/-- C6 (confirmed).  On a nonempty region the constructor resolves the
session's options as `$.extend(_defaults, options, dataOptions)`, and
for each recognized key that destructive left-to-right merge yields the
declarative (`data-*`) value when present, else the explicit options
value when present, else the default. -/
theorem c6_config_precedence (cell : Config) (region : RegionInput)
    (o : OptArgs) (k : OptKey) (h : region.scopeLength ≠ 0) :
    ((watchChanges cell region o).1.options =
      some (jqExtend cell o region.dataOptions))
  ∧ ((jqExtend cell o region.dataOptions).get k =
      (region.dataOptions.get k).getD ((o.get k).getD (cell.get k))) := by
  constructor
  · simp [watchChanges, h]
  · cases k <;> rfl

/-- Witness for `c6_config_precedence`: construct over the default cell
with an explicit option and a declarative value for the same key; the
declarative value wins. -/
theorem c6_config_precedence_witness :
    (({ scopeLength := 1
        dataOptions := { watchChangesStatus := some "From data attribute" } }
          : RegionInput).scopeLength ≠ 0)
  ∧ (((watchChanges _defaults
        { scopeLength := 1
          dataOptions := { watchChangesStatus := some "From data attribute" } }
        { watchChangesStatus := some "From options" }).1.options =
      some (jqExtend _defaults { watchChangesStatus := some "From options" }
        { watchChangesStatus := some "From data attribute" }))
    ∧ ((jqExtend _defaults { watchChangesStatus := some "From options" }
          { watchChangesStatus := some "From data attribute" }).get
            OptKey.watchChangesStatus =
        (({ watchChangesStatus := some "From data attribute" }
            : OptArgs).get OptKey.watchChangesStatus).getD
          ((({ watchChangesStatus := some "From options" }
              : OptArgs).get OptKey.watchChangesStatus).getD
            (_defaults.get OptKey.watchChangesStatus)))) :=
  ⟨by decide, c6_config_precedence _defaults
    { scopeLength := 1
      dataOptions := { watchChangesStatus := some "From data attribute" } }
    { watchChangesStatus := some "From options" }
    OptKey.watchChangesStatus (by decide)⟩

/-- C7 (confirmed).  `setDirty(state)` sets `hasChanges = state` and
refreshes presentation and guard from it: when `state` is true the
status note shows the configured dirty text with the `has-changes`
class and the saved message is hidden; when `state` is false the
`has-changes` class is removed, the saved message shown, and the guard
disarmed. -/
theorem c7_setDirty_status_guard (s : Session) :
    (∀ b, (updateHasChanges s b).hasChanges = b)
  ∧ ((updateHasChanges s true).statusText = s.options.watchChangesStatus
    ∧ (updateHasChanges s true).statusHasClass = true
    ∧ (updateHasChanges s true).savedHidden = true)
  ∧ ((updateHasChanges s false).statusHasClass = false
    ∧ (updateHasChanges s false).savedHidden = false
    ∧ (updateHasChanges s false).armed = false) := by
  refine ⟨fun b => ?_, ?_, ?_⟩ <;>
    simp [updateHasChanges, updateStatusNote, setAlert, unsetAlert,
      hideSavedChangesMessage, showSavedChangesMessage]
  · cases b <;> simp

/-- The shared `_defaults` cell after a first session is constructed on a
nonempty region with no options and no data attributes. -/
def cellAfterA : Config :=
  (watchChanges _defaults { scopeLength := 1, dataOptions := noOpts } noOpts).2

/-- The shared `_defaults` cell after a second session is then
constructed passing `watchChangesStatus` in its options argument. -/
def cellAfterB : Config :=
  (watchChanges cellAfterA { scopeLength := 1, dataOptions := noOpts }
    { watchChangesStatus := some "Session B status" }).2

/-- C8 (counterexample).  The claim that no construction of a different
session changes this session's config is false: `$.extend(_defaults,
options, dataOptions)` mutates and returns the shared `_defaults`
object, which is every session's `options`; constructing session B with
a `watchChangesStatus` option changes the live `watchChangesStatus`
that session A reads. -/
theorem c8_shared_defaults_counterexample :
    (liveConfig cellAfterB).get OptKey.watchChangesStatus ≠
      (liveConfig cellAfterA).get OptKey.watchChangesStatus := by decide

/-- C8 (amended).  Session operations taking no options argument
(`onFieldMutation`, the submit click, `setDirty`) never change the
config; but a session's live config is the shared `_defaults` cell, and
a later construction rewrites in place exactly the keys it supplies —
an option the new construction leaves absent in both its options
argument and its declarative attributes keeps its value. -/
theorem c8_config_frame_amended (s : Session) (e : Elem) (b : Bool)
    (cell : Config) (region : RegionInput) (o : OptArgs) (k : OptKey)
    (h1 : o.get k = none) (h2 : region.dataOptions.get k = none) :
    ((onFieldMutation s e).options = s.options)
  ∧ ((onSubmitClick s e).1.options = s.options)
  ∧ ((updateHasChanges s b).options = s.options)
  ∧ ((liveConfig (watchChanges cell region o).2).get k =
      (liveConfig cell).get k) := by
  refine ⟨onFieldMutation_options s e, ?_, ?_, ?_⟩
  · cases h3 : e.is s.options.watchChangesSubmits <;>
      simp [onSubmitClick, unsetAlert, h3]
  · simpa [updateHasChanges] using
      updateStatusNote_options { s with hasChanges := b } none
  · rcases Nat.eq_zero_or_pos region.scopeLength with h0 | h0
    · simp [watchChanges, liveConfig, h0]
    · have hne : ¬ region.scopeLength = 0 := Nat.pos_iff_ne_zero.mp h0
      cases k <;>
        simp_all [watchChanges, liveConfig, jqExtend, extendInto,
          Config.get, OptArgs.get]

/-- Witness for `c8_config_frame_amended`: session B's construction
passes only `watchChangesStatus`, so session A's live
`watchChangesAlert` is unchanged by it. -/
theorem c8_config_frame_amended_witness :
    ((({ watchChangesStatus := some "Session B status" } : OptArgs).get
        OptKey.watchChangesAlert = none)
    ∧ (({ scopeLength := 1, dataOptions := noOpts }
          : RegionInput).dataOptions.get OptKey.watchChangesAlert = none))
  ∧ (((onFieldMutation freshSession plainElem).options =
        freshSession.options)
    ∧ ((onSubmitClick freshSession plainElem).1.options =
        freshSession.options)
    ∧ ((updateHasChanges freshSession true).options = freshSession.options)
    ∧ ((liveConfig (watchChanges cellAfterA
          { scopeLength := 1, dataOptions := noOpts }
          { watchChangesStatus := some "Session B status" }).2).get
            OptKey.watchChangesAlert =
        (liveConfig cellAfterA).get OptKey.watchChangesAlert)) :=
  ⟨⟨by decide, by decide⟩,
    c8_config_frame_amended freshSession plainElem true cellAfterA
      { scopeLength := 1, dataOptions := noOpts }
      { watchChangesStatus := some "Session B status" }
      OptKey.watchChangesAlert (by decide) (by decide)⟩

/-- C9 (counterexample).  The claim that arming when already armed
"produces no observable effect" is false: `setAlert` fires the
`onSetAlert` callback (line 142) before the already-installed check
(line 144), so a further arm call on an armed session extends the
observable callback trace. -/
theorem c9_rearm_counterexample :
    (armedSession.armed = true)
  ∧ (setAlert armedSession).trace ≠ armedSession.trace := by decide

/-- C9 (amended).  On an already-armed session a further `setAlert`
installs no new handler and leaves the guard and all session state
unchanged — except that it still fires the `onSetAlert` callback. -/
theorem c9_rearm_amended (s : Session) (h : s.armed = true) :
    ((setAlert s).armed = true)
  ∧ ((setAlert s).trace = s.trace ++ [CB.onSetAlert])
  ∧ ((setAlert s).hasChanges = s.hasChanges)
  ∧ ((setAlert s).isException = s.isException)
  ∧ ((setAlert s).options = s.options)
  ∧ ((setAlert s).statusText = s.statusText)
  ∧ ((setAlert s).statusHasClass = s.statusHasClass)
  ∧ ((setAlert s).savedHidden = s.savedHidden) := by
  simp [setAlert, h]

/-- Witness for `c9_rearm_amended` on the concrete armed session. -/
theorem c9_rearm_amended_witness :
    (armedSession.armed = true)
  ∧ (((setAlert armedSession).armed = true)
    ∧ ((setAlert armedSession).trace =
        armedSession.trace ++ [CB.onSetAlert])
    ∧ ((setAlert armedSession).hasChanges = armedSession.hasChanges)
    ∧ ((setAlert armedSession).isException = armedSession.isException)
    ∧ ((setAlert armedSession).options = armedSession.options)
    ∧ ((setAlert armedSession).statusText = armedSession.statusText)
    ∧ ((setAlert armedSession).statusHasClass =
        armedSession.statusHasClass)
    ∧ ((setAlert armedSession).savedHidden = armedSession.savedHidden)) :=
  ⟨by decide, c9_rearm_amended armedSession (by decide)⟩

/-- C10 (confirmed).  A mutation on a non-ignored, exception-matching
target of an already-dirty session first arms through
`updateStatusNote` (firing `onSetAlert`) and only then disarms in the
handler's `else if` branch (firing `onUnsetAlert`): the event appends
exactly `[onSetAlert, onUnsetAlert]` to the trace and leaves the guard
disarmed. -/
theorem c10_exception_callback_order (s : Session) (e : Elem)
    (h1 : s.hasChanges = true)
    (h2 : e.is s.options.watchChangesIgnored = false)
    (h3 : e.is s.options.watchChangesExceptions = true) :
    ((onFieldMutation s e).trace =
      s.trace ++ [CB.onSetAlert, CB.onUnsetAlert])
  ∧ ((onFieldMutation s e).armed = false) := by
  simp [onFieldMutation, checkForException, updateStatusNote, setAlert,
    unsetAlert, hideSavedChangesMessage, showSavedChangesMessage,
    h1, h2, h3]

/-- Witness for `c10_exception_callback_order`: a submit-typed field in
a dirty default session. -/
theorem c10_exception_callback_order_witness :
    ((dirtySession.hasChanges = true)
    ∧ (excElem.is dirtySession.options.watchChangesIgnored = false)
    ∧ (excElem.is dirtySession.options.watchChangesExceptions = true))
  ∧ (((onFieldMutation dirtySession excElem).trace =
        dirtySession.trace ++ [CB.onSetAlert, CB.onUnsetAlert])
    ∧ ((onFieldMutation dirtySession excElem).armed = false)) :=
  ⟨⟨by decide, by decide, by decide⟩,
    c10_exception_callback_order dirtySession excElem
      (by decide) (by decide) (by decide)⟩
